import Mathlib

/-!
Shallow embedding of `app/models.py`, a SQLModel schema module for a lab-test
tracking application, together with proofs about its validation behaviour,
update (patch) semantics, field sets and the externally specified derived
computations (status derivation, range selection, metadata round-trip).

Conventions of the embedding:
* `datetime` values are carried as abstract `Nat` timestamps (no time
  arithmetic occurs in the module).
* Python `Decimal` values with `decimal_places=3` are carried as
  `Dec` = mantissa × 10^(-scale); the `decimal_places=3` constraint checks
  `scale ≤ 3` (the number of fractional digits of the literal).
* A pydantic (non-table) schema is embedded as a raw-input structure (the
  keyword arguments of the constructor, enum fields arriving as strings)
  plus a `validate` function returning `Except (List String) Schema`,
  the error list naming the offending fields, exactly the declared
  constraints of the source class.
-/

namespace MedModels

/-! ## Enumerations (models.py lines 8-24) -/

inductive TestStatus where
  | pending
  | completed
  | reviewed
  deriving DecidableEq, Repr, BEq

/-- String value of each `TestStatus` member, as in the `str, Enum` class. -/
def TestStatus.toString : TestStatus → String
  | .pending => "pending"
  | .completed => "completed"
  | .reviewed => "reviewed"

/-- Coercion of a raw string into `TestStatus`, as pydantic does for a
`str`-valued Enum: only the closed set of member values is accepted. -/
def TestStatus.ofString (s : String) : Option TestStatus :=
  if s = "pending" then some .pending
  else if s = "completed" then some .completed
  else if s = "reviewed" then some .reviewed
  else none

inductive Gender where
  | male
  | female
  | other
  deriving DecidableEq, Repr, BEq

def Gender.toString : Gender → String
  | .male => "male"
  | .female => "female"
  | .other => "other"

def Gender.ofString (s : String) : Option Gender :=
  if s = "male" then some .male
  else if s = "female" then some .female
  else if s = "other" then some .other
  else none

inductive AgeGroup where
  | child
  | teen
  | adult
  | senior
  deriving DecidableEq, Repr, BEq

def AgeGroup.toString : AgeGroup → String
  | .child => "child"
  | .teen => "teen"
  | .adult => "adult"
  | .senior => "senior"

def AgeGroup.ofString (s : String) : Option AgeGroup :=
  if s = "child" then some .child
  else if s = "teen" then some .teen
  else if s = "adult" then some .adult
  else if s = "senior" then some .senior
  else none

/-! ## Decimal literals with a fixed fractional-digit budget -/

/-- A decimal literal `m × 10^(-s)`: `s` is its count of fractional digits
(as pydantic computes it from the `Decimal` exponent). -/
structure Dec where
  m : Int
  s : Nat
  deriving DecidableEq, Repr

/-- The `decimal_places=3` constraint: at most 3 fractional digits. -/
def Dec.places3 (d : Dec) : Bool := d.s ≤ 3

/-- The rational value of a decimal literal times `10^3`, used to compare
decimal literals of scale at most 3 exactly. -/
def Dec.val3 (d : Dec) : Int := d.m * (10 : Int) ^ (3 - d.s)

/-! ## Email pattern of `User.email` (models.py line 33)

`regex=r"^[a-zA-Z0-9_.+-]+@[a-zA-Z0-9-]+\.[a-zA-Z0-9-.]+$"`.
None of the three character classes contains `@`, and the middle class
contains no `.`, so the regex is matched exactly by the greedy scan below:
local part up to the first `@`, domain label up to the first following
non-`[a-zA-Z0-9-]` character which must be `.`, then a non-empty tail of
`[a-zA-Z0-9-.]`. -/

def isAlphaNumCh (c : Char) : Bool :=
  decide (('a' ≤ c ∧ c ≤ 'z') ∨ ('A' ≤ c ∧ c ≤ 'Z') ∨ ('0' ≤ c ∧ c ≤ '9'))

/-- Characters of `[a-zA-Z0-9_.+-]` (the local part). -/
def localCh (c : Char) : Bool :=
  isAlphaNumCh c || c == '_' || c == '.' || c == '+' || c == '-'

/-- Characters of `[a-zA-Z0-9-]` (the first domain label). -/
def labelCh (c : Char) : Bool :=
  isAlphaNumCh c || c == '-'

/-- Characters of `[a-zA-Z0-9-.]` (the tail after the literal dot). -/
def tailCh (c : Char) : Bool :=
  isAlphaNumCh c || c == '-' || c == '.'

/-- Matcher for the anchored email regex of `User.email`, over a char list. -/
def emailCharsMatch (cs : List Char) : Bool :=
  let lp := cs.takeWhile localCh
  let rest := cs.dropWhile localCh
  match rest with
  | '@' :: afterAt =>
    let lab := afterAt.takeWhile labelCh
    let rest2 := afterAt.dropWhile labelCh
    match rest2 with
    | '.' :: tl => !lp.isEmpty && !lab.isEmpty && !tl.isEmpty && tl.all tailCh
    | _ => false
  | _ => false

/-- The RFC-shaped email pattern declared on the persisted `User.email`
column. -/
def emailMatches (s : String) : Bool := emailCharsMatch s.data

/-! ## UserCreate (models.py lines 140-144)

Fields and declared constraints, exactly as in the source:
`name: str = Field(max_length=100)`, `email: str = Field(max_length=255)`,
`date_of_birth: Optional[datetime] = None`, `gender: Optional[Gender] = None`.
Note: no `regex=` constraint appears on `UserCreate.email`. -/

structure UserCreateInput where
  name : String
  email : String
  date_of_birth : Option Nat := none
  gender : Option String := none

structure UserCreate where
  name : String
  email : String
  date_of_birth : Option Nat
  gender : Option Gender
  deriving DecidableEq, Repr

/-- Field names declared on `UserCreate`, in source order. -/
def UserCreate.fieldNames : List String :=
  ["name", "email", "date_of_birth", "gender"]

/-- Validation performed by pydantic when a `UserCreate` is constructed:
the declared `max_length` bounds, and coercion of the optional gender
string into the closed `Gender` enum. -/
def UserCreate.validate (i : UserCreateInput) : Except (List String) UserCreate :=
  let errs : List String :=
    (if i.name.length ≤ 100 then [] else ["name"]) ++
    (if i.email.length ≤ 255 then [] else ["email"]) ++
    (match i.gender with
     | none => []
     | some g => if (Gender.ofString g).isSome then [] else ["gender"])
  if errs = [] then
    .ok { name := i.name, email := i.email,
          date_of_birth := i.date_of_birth,
          gender := i.gender.bind Gender.ofString }
  else
    .error errs

/-! ## UserUpdate (models.py lines 147-151)

All fields optional with default `None`, `max_length` as declared. -/

structure UserUpdateInput where
  name : Option String := none
  email : Option String := none
  date_of_birth : Option Nat := none
  gender : Option String := none

structure UserUpdate where
  name : Option String
  email : Option String
  date_of_birth : Option Nat
  gender : Option Gender
  deriving DecidableEq, Repr

def UserUpdate.fieldNames : List String :=
  ["name", "email", "date_of_birth", "gender"]

def UserUpdate.validate (i : UserUpdateInput) : Except (List String) UserUpdate :=
  let errs : List String :=
    (match i.name with
     | none => []
     | some s => if s.length ≤ 100 then [] else ["name"]) ++
    (match i.email with
     | none => []
     | some s => if s.length ≤ 255 then [] else ["email"]) ++
    (match i.gender with
     | none => []
     | some g => if (Gender.ofString g).isSome then [] else ["gender"])
  if errs = [] then
    .ok { name := i.name, email := i.email,
          date_of_birth := i.date_of_birth,
          gender := i.gender.bind Gender.ofString }
  else
    .error errs

/-! ## TestTypeCreate (models.py lines 154-157) -/

structure TestTypeCreateInput where
  name : String
  description : String := ""
  category : String
  deriving DecidableEq, Repr

structure TestTypeCreate where
  name : String
  description : String
  category : String
  deriving DecidableEq, Repr

def TestTypeCreate.fieldNames : List String :=
  ["name", "description", "category"]

def TestTypeCreate.validate (i : TestTypeCreateInput) :
    Except (List String) TestTypeCreate :=
  let errs : List String :=
    (if i.name.length ≤ 100 then [] else ["name"]) ++
    (if i.description.length ≤ 500 then [] else ["description"]) ++
    (if i.category.length ≤ 50 then [] else ["category"])
  if errs = [] then
    .ok { name := i.name, description := i.description, category := i.category }
  else
    .error errs

/-! ## TestParameterCreate (models.py lines 160-165) -/

structure TestParameterCreateInput where
  test_type_id : Int
  name : String
  code : String
  unit : String
  description : String := ""
  deriving DecidableEq, Repr

structure TestParameterCreate where
  test_type_id : Int
  name : String
  code : String
  unit : String
  description : String
  deriving DecidableEq, Repr

def TestParameterCreate.fieldNames : List String :=
  ["test_type_id", "name", "code", "unit", "description"]

def TestParameterCreate.validate (i : TestParameterCreateInput) :
    Except (List String) TestParameterCreate :=
  let errs : List String :=
    (if i.name.length ≤ 100 then [] else ["name"]) ++
    (if i.code.length ≤ 20 then [] else ["code"]) ++
    (if i.unit.length ≤ 20 then [] else ["unit"]) ++
    (if i.description.length ≤ 300 then [] else ["description"])
  if errs = [] then
    .ok { test_type_id := i.test_type_id, name := i.name, code := i.code,
          unit := i.unit, description := i.description }
  else
    .error errs

/-! ## ReferenceRangeCreate (models.py lines 168-178) -/

structure ReferenceRangeCreateInput where
  test_parameter_id : Int
  gender : Option String := none
  age_group : Option String := none
  min_age : Option Int := none
  max_age : Option Int := none
  min_value : Option Dec := none
  max_value : Option Dec := none
  optimal_min : Option Dec := none
  optimal_max : Option Dec := none
  notes : String := ""
  deriving DecidableEq, Repr

structure ReferenceRangeCreate where
  test_parameter_id : Int
  gender : Option Gender
  age_group : Option AgeGroup
  min_age : Option Int
  max_age : Option Int
  min_value : Option Dec
  max_value : Option Dec
  optimal_min : Option Dec
  optimal_max : Option Dec
  notes : String
  deriving DecidableEq, Repr

def ReferenceRangeCreate.fieldNames : List String :=
  ["test_parameter_id", "gender", "age_group", "min_age", "max_age",
   "min_value", "max_value", "optimal_min", "optimal_max", "notes"]

def decFieldErr (field : String) : Option Dec → List String
  | none => []
  | some d => if d.places3 then [] else [field]

def ReferenceRangeCreate.validate (i : ReferenceRangeCreateInput) :
    Except (List String) ReferenceRangeCreate :=
  let errs : List String :=
    (match i.gender with
     | none => []
     | some g => if (Gender.ofString g).isSome then [] else ["gender"]) ++
    (match i.age_group with
     | none => []
     | some a => if (AgeGroup.ofString a).isSome then [] else ["age_group"]) ++
    decFieldErr "min_value" i.min_value ++
    decFieldErr "max_value" i.max_value ++
    decFieldErr "optimal_min" i.optimal_min ++
    decFieldErr "optimal_max" i.optimal_max ++
    (if i.notes.length ≤ 300 then [] else ["notes"])
  if errs = [] then
    .ok { test_parameter_id := i.test_parameter_id,
          gender := i.gender.bind Gender.ofString,
          age_group := i.age_group.bind AgeGroup.ofString,
          min_age := i.min_age, max_age := i.max_age,
          min_value := i.min_value, max_value := i.max_value,
          optimal_min := i.optimal_min, optimal_max := i.optimal_max,
          notes := i.notes }
  else
    .error errs

/-! ## TestReportCreate (models.py lines 181-188) -/

structure TestReportCreateInput where
  user_id : Int
  test_type_id : Int
  report_name : String
  test_date : Nat
  lab_name : String := ""
  doctor_name : String := ""
  notes : String := ""
  deriving DecidableEq, Repr

structure TestReportCreate where
  user_id : Int
  test_type_id : Int
  report_name : String
  test_date : Nat
  lab_name : String
  doctor_name : String
  notes : String
  deriving DecidableEq, Repr

def TestReportCreate.fieldNames : List String :=
  ["user_id", "test_type_id", "report_name", "test_date",
   "lab_name", "doctor_name", "notes"]

def TestReportCreate.validate (i : TestReportCreateInput) :
    Except (List String) TestReportCreate :=
  let errs : List String :=
    (if i.report_name.length ≤ 200 then [] else ["report_name"]) ++
    (if i.lab_name.length ≤ 100 then [] else ["lab_name"]) ++
    (if i.doctor_name.length ≤ 100 then [] else ["doctor_name"]) ++
    (if i.notes.length ≤ 1000 then [] else ["notes"])
  if errs = [] then
    .ok { user_id := i.user_id, test_type_id := i.test_type_id,
          report_name := i.report_name, test_date := i.test_date,
          lab_name := i.lab_name, doctor_name := i.doctor_name,
          notes := i.notes }
  else
    .error errs

/-! ## TestReportUpdate (models.py lines 191-196) -/

structure TestReportUpdateInput where
  report_name : Option String := none
  lab_name : Option String := none
  doctor_name : Option String := none
  status : Option String := none
  notes : Option String := none
  deriving DecidableEq, Repr

structure TestReportUpdate where
  report_name : Option String
  lab_name : Option String
  doctor_name : Option String
  status : Option TestStatus
  notes : Option String
  deriving DecidableEq, Repr

def TestReportUpdate.fieldNames : List String :=
  ["report_name", "lab_name", "doctor_name", "status", "notes"]

def TestReportUpdate.validate (i : TestReportUpdateInput) :
    Except (List String) TestReportUpdate :=
  let errs : List String :=
    (match i.report_name with
     | none => []
     | some s => if s.length ≤ 200 then [] else ["report_name"]) ++
    (match i.lab_name with
     | none => []
     | some s => if s.length ≤ 100 then [] else ["lab_name"]) ++
    (match i.doctor_name with
     | none => []
     | some s => if s.length ≤ 100 then [] else ["doctor_name"]) ++
    (match i.status with
     | none => []
     | some s => if (TestStatus.ofString s).isSome then [] else ["status"]) ++
    (match i.notes with
     | none => []
     | some s => if s.length ≤ 1000 then [] else ["notes"])
  if errs = [] then
    .ok { report_name := i.report_name, lab_name := i.lab_name,
          doctor_name := i.doctor_name,
          status := i.status.bind TestStatus.ofString,
          notes := i.notes }
  else
    .error errs

/-! ## TestResultCreate (models.py lines 199-205) -/

structure TestResultCreateInput where
  test_report_id : Int
  test_parameter_id : Int
  value : Dec
  is_abnormal : Bool := false
  abnormal_flag : Option String := none
  notes : String := ""
  deriving DecidableEq, Repr

structure TestResultCreate where
  test_report_id : Int
  test_parameter_id : Int
  value : Dec
  is_abnormal : Bool
  abnormal_flag : Option String
  notes : String
  deriving DecidableEq, Repr

def TestResultCreate.fieldNames : List String :=
  ["test_report_id", "test_parameter_id", "value", "is_abnormal",
   "abnormal_flag", "notes"]

def TestResultCreate.validate (i : TestResultCreateInput) :
    Except (List String) TestResultCreate :=
  let errs : List String :=
    (if i.value.places3 then [] else ["value"]) ++
    (match i.abnormal_flag with
     | none => []
     | some s => if s.length ≤ 10 then [] else ["abnormal_flag"]) ++
    (if i.notes.length ≤ 300 then [] else ["notes"])
  if errs = [] then
    .ok { test_report_id := i.test_report_id,
          test_parameter_id := i.test_parameter_id,
          value := i.value, is_abnormal := i.is_abnormal,
          abnormal_flag := i.abnormal_flag, notes := i.notes }
  else
    .error errs

/-! ## TestResultUpdate (models.py lines 208-212) -/

structure TestResultUpdateInput where
  value : Option Dec := none
  is_abnormal : Option Bool := none
  abnormal_flag : Option String := none
  notes : Option String := none
  deriving DecidableEq, Repr

structure TestResultUpdate where
  value : Option Dec
  is_abnormal : Option Bool
  abnormal_flag : Option String
  notes : Option String
  deriving DecidableEq, Repr

def TestResultUpdate.fieldNames : List String :=
  ["value", "is_abnormal", "abnormal_flag", "notes"]

def TestResultUpdate.validate (i : TestResultUpdateInput) :
    Except (List String) TestResultUpdate :=
  let errs : List String :=
    decFieldErr "value" i.value ++
    (match i.abnormal_flag with
     | none => []
     | some s => if s.length ≤ 10 then [] else ["abnormal_flag"]) ++
    (match i.notes with
     | none => []
     | some s => if s.length ≤ 300 then [] else ["notes"])
  if errs = [] then
    .ok { value := i.value, is_abnormal := i.is_abnormal,
          abnormal_flag := i.abnormal_flag, notes := i.notes }
  else
    .error errs

/-! ## Structured metadata values

`TestReport.extra_metadata` is declared `Dict[str, Any]` on a JSON column:
an open key-value map whose values are arbitrary structured data. -/

/-- A schemaless structured value: the tagged union of
null/bool/number/string/array/map that a JSON column carries. -/
inductive SValue where
  | null : SValue
  | bool : Bool → SValue
  | num : Int → SValue
  | str : String → SValue
  | arr : List SValue → SValue
  | obj : List (String × SValue) → SValue

/-! ## Persisted entities (the fields the claims touch) -/

/-- `User` (models.py lines 28-41). -/
structure User where
  id : Option Int
  name : String
  email : String
  date_of_birth : Option Nat
  gender : Option Gender
  is_active : Bool
  created_at : Nat
  updated_at : Option Nat

/-- `TestReport` (models.py lines 98-119). -/
structure TestReport where
  id : Option Int
  user_id : Int
  test_type_id : Int
  report_name : String
  test_date : Nat
  lab_name : String
  doctor_name : String
  status : TestStatus
  notes : String
  file_path : Option String
  file_name : Option String
  extra_metadata : List (String × SValue)
  created_at : Nat
  updated_at : Option Nat

/-- `TestResult` (models.py lines 122-136). -/
structure TestResult where
  id : Option Int
  test_report_id : Int
  test_parameter_id : Int
  value : Dec
  is_abnormal : Bool
  abnormal_flag : Option String
  notes : String
  created_at : Nat

/-! ## Patch application

The write operations themselves live outside the schema module; the spec
fixes their semantics: `Update schemas are fully optional-field patches —
absent fields mean "leave unchanged."` -/

/-- Modelled from the spec: applying a `UserUpdate` patch (the update
endpoint itself is outside this module). Each present field overwrites the
record's field; absent fields leave it unchanged. -/
def applyUserUpdate (u : UserUpdate) (r : User) : User :=
  { r with
    name := u.name.getD r.name,
    email := u.email.getD r.email,
    date_of_birth := match u.date_of_birth with
      | some d => some d
      | none => r.date_of_birth,
    gender := match u.gender with
      | some g => some g
      | none => r.gender }

/-- Modelled from the spec: applying a `TestReportUpdate` patch (the update
endpoint itself is outside this module); only the five declared fields can
be set, absent fields leave the record unchanged. -/
def applyTestReportUpdate (u : TestReportUpdate) (r : TestReport) : TestReport :=
  { r with
    report_name := u.report_name.getD r.report_name,
    lab_name := u.lab_name.getD r.lab_name,
    doctor_name := u.doctor_name.getD r.doctor_name,
    status := u.status.getD r.status,
    notes := u.notes.getD r.notes }

/-- Modelled from the spec: applying a `TestResultUpdate` patch (the update
endpoint itself is outside this module). -/
def applyTestResultUpdate (u : TestResultUpdate) (r : TestResult) : TestResult :=
  { r with
    value := u.value.getD r.value,
    is_abnormal := u.is_abnormal.getD r.is_abnormal,
    abnormal_flag := match u.abnormal_flag with
      | some f => some f
      | none => r.abnormal_flag,
    notes := u.notes.getD r.notes }

/-- Modelled from the spec: creating a `TestReport` row from a
`TestReportCreate` transfer schema (the create endpoint is outside this
module). Caller-settable fields come from the schema; server-assigned
fields take the defaults declared on the `TestReport` model
(`status = TestStatus.PENDING` at models.py line 108, `extra_metadata = {}`,
`created_at = now`, `id` assigned by the database). -/
def TestReport.fromCreate (c : TestReportCreate) (now : Nat) : TestReport :=
  { id := none
    user_id := c.user_id
    test_type_id := c.test_type_id
    report_name := c.report_name
    test_date := c.test_date
    lab_name := c.lab_name
    doctor_name := c.doctor_name
    status := .pending
    notes := c.notes
    file_path := none
    file_name := none
    extra_metadata := []
    created_at := now
    updated_at := none }

/-! ## Derived status of a TestResultWithRange (models.py lines 216-229)

The response schema carries `status: str  # "normal", "low", "high",
"optimal"`; its computation is external. -/

/-- `value < bound` when the optional bound is present. -/
def ltOpt (v : Int) : Option Int → Bool
  | some m => decide (v < m)
  | none => false

/-- `bound < value` when the optional bound is present. -/
def gtOpt (v : Int) : Option Int → Bool
  | some m => decide (m < v)
  | none => false

/-- `lo ≤ value ≤ hi` when both optional bounds are present. -/
def insideOpt (v : Int) (lo hi : Option Int) : Bool :=
  match lo, hi with
  | some a, some b => decide (a ≤ v ∧ v ≤ b)
  | _, _ => false

/-- Modelled from the spec: the external computation of
`TestResultWithRange.status` from the result value and range bounds:
value < min → "low"; value > max → "high";
within [optimal_min, optimal_max] → "optimal"; else → "normal".
All quantities are in thousandths (`Dec.val3`-scaled integers). -/
def deriveStatus (value : Int) (rmin rmax omin omax : Option Int) : String :=
  if ltOpt value rmin then "low"
  else if gtOpt value rmax then "high"
  else if insideOpt value omin omax then "optimal"
  else "normal"

/-- `TestResultWithRange` (models.py lines 216-229). -/
structure TestResultWithRange where
  result_id : Int
  parameter_name : String
  parameter_code : String
  unit : String
  value : Dec
  is_abnormal : Bool
  abnormal_flag : Option String
  reference_min : Option Dec
  reference_max : Option Dec
  optimal_min : Option Dec
  optimal_max : Option Dec
  status : String
  notes : String

/-- `ReferenceRange` (models.py lines 77-95), the fields the range lookup
reads. `gender = none` / `age_group = none` mean "applies to all". -/
structure ReferenceRange where
  id : Option Int
  test_parameter_id : Int
  gender : Option Gender
  age_group : Option AgeGroup
  min_age : Option Int
  max_age : Option Int
  min_value : Option Dec
  max_value : Option Dec
  optimal_min : Option Dec
  optimal_max : Option Dec
  notes : String
  is_active : Bool
  created_at : Nat

/-- Modelled from the spec: joining one `TestResult` with its applicable
`ReferenceRange` into a `TestResultWithRange` view, the derived `status`
computed from the value and the range bounds. -/
def mkTestResultWithRange (res : TestResult) (rid : Int)
    (pname pcode punit : String) (rng : ReferenceRange) : TestResultWithRange :=
  { result_id := rid
    parameter_name := pname
    parameter_code := pcode
    unit := punit
    value := res.value
    is_abnormal := res.is_abnormal
    abnormal_flag := res.abnormal_flag
    reference_min := rng.min_value
    reference_max := rng.max_value
    optimal_min := rng.optimal_min
    optimal_max := rng.optimal_max
    status := deriveStatus res.value.val3 (rng.min_value.map Dec.val3)
      (rng.max_value.map Dec.val3) (rng.optimal_min.map Dec.val3)
      (rng.optimal_max.map Dec.val3)
    notes := res.notes }

/-! ## Demographic applicability and range selection -/

/-- The demographics of a user the range lookup matches against. -/
structure UserDemo where
  gender : Gender
  age_group : AgeGroup
  deriving DecidableEq, Repr

/-- Modelled from the spec: whether a reference range applies to a user —
a `none` gender or age-group filter applies to all, a present filter must
equal the user's value. -/
def rangeApplies (r : ReferenceRange) (u : UserDemo) : Bool :=
  (match r.gender with
   | none => true
   | some g => decide (g = u.gender)) &&
  (match r.age_group with
   | none => true
   | some a => decide (a = u.age_group))

/-- How specific a range's demographic filters are: one point per present
filter. -/
def rangeSpecificity (r : ReferenceRange) : Nat :=
  (if r.gender.isSome then 1 else 0) + (if r.age_group.isSome then 1 else 0)

/-- Modelled from the spec: the external lookup picks the best-matching
range for a user — among the applicable ranges, one of maximal demographic
specificity (a strictly more specific applicable range displaces the
current choice). -/
def selectRange (u : UserDemo) (rs : List ReferenceRange) : Option ReferenceRange :=
  rs.foldl
    (fun best r =>
      if rangeApplies r u then
        match best with
        | none => some r
        | some b => if rangeSpecificity b < rangeSpecificity r then some r else some b
      else best)
    none

/-! ## Serialization of structured metadata

Modelled from the spec: `extra_metadata` is stored through a
self-describing encoding of the tagged union null/bool/number/string/
array/map (a JSON-compatible blob column). The encoding below flattens a
value into self-describing tokens (arrays and maps announce their length);
the decoder reads a value back off the front of the token stream. -/

/-- One token of the self-describing metadata encoding. -/
inductive MTok where
  | tNull : MTok
  | tBool : Bool → MTok
  | tNum : Int → MTok
  | tStr : String → MTok
  | tArr : Nat → MTok
  | tObj : Nat → MTok
  deriving DecidableEq, Repr

mutual

/-- Serialize a structured value to tokens. -/
def encodeSValue : SValue → List MTok
  | .null => [.tNull]
  | .bool b => [.tBool b]
  | .num n => [.tNum n]
  | .str s => [.tStr s]
  | .arr xs => .tArr xs.length :: encodeSList xs
  | .obj kvs => .tObj kvs.length :: encodeSObj kvs

/-- Serialize the elements of an array in order. -/
def encodeSList : List SValue → List MTok
  | [] => []
  | x :: xs => encodeSValue x ++ encodeSList xs

/-- Serialize the key-value entries of a map in order. -/
def encodeSObj : List (String × SValue) → List MTok
  | [] => []
  | (k, v) :: kvs => .tStr k :: (encodeSValue v ++ encodeSObj kvs)

end

mutual

/-- Nesting depth of a structured value (the fuel the decoder needs). -/
def depthSValue : SValue → Nat
  | .null => 1
  | .bool _ => 1
  | .num _ => 1
  | .str _ => 1
  | .arr xs => depthSList xs + 1
  | .obj kvs => depthSObj kvs + 1

def depthSList : List SValue → Nat
  | [] => 0
  | x :: xs => max (depthSValue x) (depthSList xs)

def depthSObj : List (String × SValue) → Nat
  | [] => 0
  | (_, v) :: kvs => max (depthSValue v) (depthSObj kvs)

end

mutual

/-- Parse one structured value off the front of a token stream, returning
it and the unconsumed tail; `fuel` bounds the nesting depth. -/
def decodeSValue : Nat → List MTok → Option (SValue × List MTok)
  | 0, _ => none
  | _ + 1, [] => none
  | fuel + 1, t :: ts =>
    match t with
    | .tNull => some (.null, ts)
    | .tBool b => some (.bool b, ts)
    | .tNum n => some (.num n, ts)
    | .tStr s => some (.str s, ts)
    | .tArr n =>
      match decodeSList fuel n ts with
      | some (xs, rest) => some (.arr xs, rest)
      | none => none
    | .tObj n =>
      match decodeSObj fuel n ts with
      | some (kvs, rest) => some (.obj kvs, rest)
      | none => none
termination_by fuel _ => (fuel, 0, 0)

/-- Parse `n` array elements off the front of a token stream. -/
def decodeSList : Nat → Nat → List MTok → Option (List SValue × List MTok)
  | _, 0, ts => some ([], ts)
  | fuel, n + 1, ts =>
    match decodeSValue fuel ts with
    | some (v, ts1) =>
      match decodeSList fuel n ts1 with
      | some (vs, ts2) => some (v :: vs, ts2)
      | none => none
    | none => none
termination_by fuel n _ => (fuel, 1, n)

/-- Parse `n` key-value entries off the front of a token stream. -/
def decodeSObj : Nat → Nat → List MTok →
    Option (List (String × SValue) × List MTok)
  | _, 0, ts => some ([], ts)
  | fuel, n + 1, ts =>
    match ts with
    | .tStr k :: ts0 =>
      match decodeSValue fuel ts0 with
      | some (v, ts1) =>
        match decodeSObj fuel n ts1 with
        | some (kvs, ts2) => some ((k, v) :: kvs, ts2)
        | none => none
      | none => none
    | _ => none
termination_by fuel n _ => (fuel, 1, n)

end

/-- Modelled from the spec: storing an `extra_metadata` value serializes it
with the self-describing encoding. -/
def metadataStore (v : SValue) : List MTok := encodeSValue v

/-- Modelled from the spec: reading an `extra_metadata` blob back parses
the token stream (the stream's length bounds any well-formed nesting
depth) and requires it to be fully consumed. -/
def metadataLoad (ts : List MTok) : Option SValue :=
  match decodeSValue ts.length ts with
  | some (v, []) => some v
  | _ => none

/-! ## Round-trip of the metadata encoding -/

mutual

theorem decode_encodeSValue (v : SValue) (fuel : Nat) (rest : List MTok)
    (h : depthSValue v ≤ fuel) :
    decodeSValue fuel (encodeSValue v ++ rest) = some (v, rest) :=
  match v, fuel with
  | .null, _ + 1 => by simp [encodeSValue, decodeSValue]
  | .bool _, _ + 1 => by simp [encodeSValue, decodeSValue]
  | .num _, _ + 1 => by simp [encodeSValue, decodeSValue]
  | .str _, _ + 1 => by simp [encodeSValue, decodeSValue]
  | .arr xs, fuel + 1 => by
      have hx : depthSList xs ≤ fuel := by
        simp only [depthSValue] at h; omega
      have ih := decode_encodeSList xs fuel rest hx
      simp [encodeSValue, decodeSValue, ih]
  | .obj kvs, fuel + 1 => by
      have hx : depthSObj kvs ≤ fuel := by
        simp only [depthSValue] at h; omega
      have ih := decode_encodeSObj kvs fuel rest hx
      simp [encodeSValue, decodeSValue, ih]
  | v, 0 => absurd h (by cases v <;> simp [depthSValue])

theorem decode_encodeSList (xs : List SValue) (fuel : Nat) (rest : List MTok)
    (h : depthSList xs ≤ fuel) :
    decodeSList fuel xs.length (encodeSList xs ++ rest) = some (xs, rest) :=
  match xs with
  | [] => by simp [encodeSList, decodeSList]
  | x :: xs => by
      have hm : max (depthSValue x) (depthSList xs) ≤ fuel := by
        simpa [depthSList] using h
      have ih1 := decode_encodeSValue x fuel (encodeSList xs ++ rest)
        (le_trans (le_max_left _ _) hm)
      have ih2 := decode_encodeSList xs fuel rest
        (le_trans (le_max_right _ _) hm)
      simp [encodeSList, decodeSList, List.append_assoc, ih1, ih2]

theorem decode_encodeSObj (kvs : List (String × SValue)) (fuel : Nat)
    (rest : List MTok) (h : depthSObj kvs ≤ fuel) :
    decodeSObj fuel kvs.length (encodeSObj kvs ++ rest) = some (kvs, rest) :=
  match kvs with
  | [] => by simp [encodeSObj, decodeSObj]
  | (k, v) :: kvs => by
      have hm : max (depthSValue v) (depthSObj kvs) ≤ fuel := by
        simpa [depthSObj] using h
      have ih1 := decode_encodeSValue v fuel (encodeSObj kvs ++ rest)
        (le_trans (le_max_left _ _) hm)
      have ih2 := decode_encodeSObj kvs fuel rest
        (le_trans (le_max_right _ _) hm)
      simp [encodeSObj, decodeSObj, List.append_assoc, ih1, ih2]

end

mutual

theorem depth_le_lengthSValue (v : SValue) :
    depthSValue v ≤ (encodeSValue v).length :=
  match v with
  | .null => by simp [depthSValue, encodeSValue]
  | .bool _ => by simp [depthSValue, encodeSValue]
  | .num _ => by simp [depthSValue, encodeSValue]
  | .str _ => by simp [depthSValue, encodeSValue]
  | .arr xs => by
      have h := depth_le_lengthSList xs
      simp only [depthSValue, encodeSValue, List.length_cons]
      omega
  | .obj kvs => by
      have h := depth_le_lengthSObj kvs
      simp only [depthSValue, encodeSValue, List.length_cons]
      omega

theorem depth_le_lengthSList (xs : List SValue) :
    depthSList xs ≤ (encodeSList xs).length :=
  match xs with
  | [] => by simp [depthSList, encodeSList]
  | x :: xs => by
      have h1 := depth_le_lengthSValue x
      have h2 := depth_le_lengthSList xs
      simp only [depthSList, encodeSList, List.length_append]
      exact max_le (by omega) (by omega)

theorem depth_le_lengthSObj (kvs : List (String × SValue)) :
    depthSObj kvs ≤ (encodeSObj kvs).length :=
  match kvs with
  | [] => by simp [depthSObj, encodeSObj]
  | (_, v) :: kvs => by
      have h1 := depth_le_lengthSValue v
      have h2 := depth_le_lengthSObj kvs
      simp only [depthSObj, encodeSObj, List.length_cons, List.length_append]
      exact max_le (by omega) (by omega)

end

/-! ## Claim theorems -/

/-- C1 counterexample: the string "notanemail" does not match the email
pattern declared on `User.email`, yet constructing a `UserCreate` with it
as email succeeds — `UserCreate` declares no regex constraint, so the
claim that every non-matching email is rejected at construction is false. -/
theorem userCreate_accepts_nonmatching_email :
    emailMatches "notanemail" = false ∧
    (UserCreate.validate { name := "Bob", email := "notanemail" }).isOk = true := by
  decide

/-- C1 (amended): the email pattern is declared on the persisted
`User.email` column only; `UserCreate` and `UserUpdate` validate only
`max_length = 255` on email, so construction succeeds for any email string
of length at most 255 whether or not it matches the pattern. -/
theorem userCreate_email_only_max_length :
    (∀ (nm em : String) (dob : Option Nat),
      ((UserCreate.validate
          { name := nm, email := em, date_of_birth := dob }).isOk = true ↔
        nm.length ≤ 100 ∧ em.length ≤ 255)) ∧
    (∀ em : String,
      ((UserUpdate.validate { email := some em }).isOk = true ↔
        em.length ≤ 255)) := by
  constructor
  · intro nm em dob
    by_cases h1 : nm.length ≤ 100 <;> by_cases h2 : em.length ≤ 255 <;>
      simp [UserCreate.validate, h1, h2, Except.isOk, Except.toBool]
  · intro em
    by_cases h2 : em.length ≤ 255 <;>
      simp [UserUpdate.validate, h2, Except.isOk, Except.toBool]

lemma gender_ofString_isSome (s : String) :
    (Gender.ofString s).isSome = true ↔
      s = "male" ∨ s = "female" ∨ s = "other" := by
  simp only [Gender.ofString]; split_ifs <;> simp_all

lemma ageGroup_ofString_isSome (s : String) :
    (AgeGroup.ofString s).isSome = true ↔
      s = "child" ∨ s = "teen" ∨ s = "adult" ∨ s = "senior" := by
  simp only [AgeGroup.ofString]; split_ifs <;> simp_all

lemma testStatus_ofString_isSome (s : String) :
    (TestStatus.ofString s).isSome = true ↔
      s = "pending" ∨ s = "completed" ∨ s = "reviewed" := by
  simp only [TestStatus.ofString]; split_ifs <;> simp_all

lemma userCreate_gender_isOk_key (s : String) :
    (UserCreate.validate { name := "", email := "", gender := some s }).isOk =
      (Gender.ofString s).isSome := by
  cases hg : Gender.ofString s <;>
    simp [UserCreate.validate, hg, Except.isOk, Except.toBool]

lemma referenceRangeCreate_ageGroup_isOk_key (s : String) :
    (ReferenceRangeCreate.validate
        { test_parameter_id := 1, age_group := some s }).isOk =
      (AgeGroup.ofString s).isSome := by
  cases ha : AgeGroup.ofString s <;>
    simp [ReferenceRangeCreate.validate, ha, decFieldErr,
      Except.isOk, Except.toBool]

lemma testReportUpdate_status_isOk_key (s : String) :
    (TestReportUpdate.validate { status := some s }).isOk =
      (TestStatus.ofString s).isSome := by
  cases hs : TestStatus.ofString s <;>
    simp [TestReportUpdate.validate, hs, Except.isOk, Except.toBool]

/-- C3: each enumerated field accepts exactly its closed set of string
values — at the enum coercion itself and at schema construction
(`UserCreate.gender`, `ReferenceRangeCreate.age_group`,
`TestReportUpdate.status`); every other string fails validation. -/
theorem enum_fields_closed_sets :
    (∀ s : String, (Gender.ofString s).isSome = true ↔
      s = "male" ∨ s = "female" ∨ s = "other") ∧
    (∀ s : String, (AgeGroup.ofString s).isSome = true ↔
      s = "child" ∨ s = "teen" ∨ s = "adult" ∨ s = "senior") ∧
    (∀ s : String, (TestStatus.ofString s).isSome = true ↔
      s = "pending" ∨ s = "completed" ∨ s = "reviewed") ∧
    (∀ s : String,
      ((UserCreate.validate
          { name := "", email := "", gender := some s }).isOk = true ↔
        s = "male" ∨ s = "female" ∨ s = "other")) ∧
    (∀ s : String,
      ((ReferenceRangeCreate.validate
          { test_parameter_id := 1, age_group := some s }).isOk = true ↔
        s = "child" ∨ s = "teen" ∨ s = "adult" ∨ s = "senior")) ∧
    (∀ s : String,
      ((TestReportUpdate.validate { status := some s }).isOk = true ↔
        s = "pending" ∨ s = "completed" ∨ s = "reviewed")) := by
  refine ⟨gender_ofString_isSome, ageGroup_ofString_isSome,
    testStatus_ofString_isSome, ?_, ?_, ?_⟩
  · intro s
    rw [userCreate_gender_isOk_key s]
    exact gender_ofString_isSome s
  · intro s
    rw [referenceRangeCreate_ageGroup_isOk_key s]
    exact ageGroup_ofString_isSome s
  · intro s
    rw [testReportUpdate_status_isOk_key s]
    exact testStatus_ofString_isSome s

/-- C2: for every Create schema and every string field with a declared
`max_length` L, construction (with the other fields valid) succeeds
exactly when the field's length is at most L — so a string of length
exactly L succeeds — and otherwise fails with a validation error naming
the offending field. One conjunct per declared (schema, field, L) pair of
the source. -/
theorem create_max_length_boundaries :
    (∀ s : String, UserCreate.validate { name := s, email := "" } =
      if s.length ≤ 100 then
        .ok { name := s, email := "", date_of_birth := none, gender := none }
      else .error ["name"]) ∧
    (∀ s : String, UserCreate.validate { name := "", email := s } =
      if s.length ≤ 255 then
        .ok { name := "", email := s, date_of_birth := none, gender := none }
      else .error ["email"]) ∧
    (∀ s : String, TestTypeCreate.validate { name := s, category := "" } =
      if s.length ≤ 100 then
        .ok { name := s, description := "", category := "" }
      else .error ["name"]) ∧
    (∀ s : String,
      TestTypeCreate.validate { name := "", description := s, category := "" } =
      if s.length ≤ 500 then
        .ok { name := "", description := s, category := "" }
      else .error ["description"]) ∧
    (∀ s : String, TestTypeCreate.validate { name := "", category := s } =
      if s.length ≤ 50 then
        .ok { name := "", description := "", category := s }
      else .error ["category"]) ∧
    (∀ s : String, TestParameterCreate.validate
        { test_type_id := 1, name := s, code := "", unit := "" } =
      if s.length ≤ 100 then
        .ok { test_type_id := 1, name := s, code := "", unit := "",
              description := "" }
      else .error ["name"]) ∧
    (∀ s : String, TestParameterCreate.validate
        { test_type_id := 1, name := "", code := s, unit := "" } =
      if s.length ≤ 20 then
        .ok { test_type_id := 1, name := "", code := s, unit := "",
              description := "" }
      else .error ["code"]) ∧
    (∀ s : String, TestParameterCreate.validate
        { test_type_id := 1, name := "", code := "", unit := s } =
      if s.length ≤ 20 then
        .ok { test_type_id := 1, name := "", code := "", unit := s,
              description := "" }
      else .error ["unit"]) ∧
    (∀ s : String, TestParameterCreate.validate
        { test_type_id := 1, name := "", code := "", unit := "",
          description := s } =
      if s.length ≤ 300 then
        .ok { test_type_id := 1, name := "", code := "", unit := "",
              description := s }
      else .error ["description"]) ∧
    (∀ s : String, ReferenceRangeCreate.validate
        { test_parameter_id := 1, notes := s } =
      if s.length ≤ 300 then
        .ok { test_parameter_id := 1, gender := none, age_group := none,
              min_age := none, max_age := none, min_value := none,
              max_value := none, optimal_min := none, optimal_max := none,
              notes := s }
      else .error ["notes"]) ∧
    (∀ s : String, TestReportCreate.validate
        { user_id := 1, test_type_id := 1, report_name := s, test_date := 0 } =
      if s.length ≤ 200 then
        .ok { user_id := 1, test_type_id := 1, report_name := s,
              test_date := 0, lab_name := "", doctor_name := "", notes := "" }
      else .error ["report_name"]) ∧
    (∀ s : String, TestReportCreate.validate
        { user_id := 1, test_type_id := 1, report_name := "", test_date := 0,
          lab_name := s } =
      if s.length ≤ 100 then
        .ok { user_id := 1, test_type_id := 1, report_name := "",
              test_date := 0, lab_name := s, doctor_name := "", notes := "" }
      else .error ["lab_name"]) ∧
    (∀ s : String, TestReportCreate.validate
        { user_id := 1, test_type_id := 1, report_name := "", test_date := 0,
          doctor_name := s } =
      if s.length ≤ 100 then
        .ok { user_id := 1, test_type_id := 1, report_name := "",
              test_date := 0, lab_name := "", doctor_name := s, notes := "" }
      else .error ["doctor_name"]) ∧
    (∀ s : String, TestReportCreate.validate
        { user_id := 1, test_type_id := 1, report_name := "", test_date := 0,
          notes := s } =
      if s.length ≤ 1000 then
        .ok { user_id := 1, test_type_id := 1, report_name := "",
              test_date := 0, lab_name := "", doctor_name := "", notes := s }
      else .error ["notes"]) ∧
    (∀ s : String, TestResultCreate.validate
        { test_report_id := 1, test_parameter_id := 1, value := ⟨0, 0⟩,
          abnormal_flag := some s } =
      if s.length ≤ 10 then
        .ok { test_report_id := 1, test_parameter_id := 1, value := ⟨0, 0⟩,
              is_abnormal := false, abnormal_flag := some s, notes := "" }
      else .error ["abnormal_flag"]) ∧
    (∀ s : String, TestResultCreate.validate
        { test_report_id := 1, test_parameter_id := 1, value := ⟨0, 0⟩,
          notes := s } =
      if s.length ≤ 300 then
        .ok { test_report_id := 1, test_parameter_id := 1, value := ⟨0, 0⟩,
              is_abnormal := false, abnormal_flag := none, notes := s }
      else .error ["notes"]) := by
  refine ⟨?_, ?_, ?_, ?_, ?_, ?_, ?_, ?_, ?_, ?_, ?_, ?_, ?_, ?_, ?_, ?_⟩ <;>
    intro s
  · by_cases h : s.length ≤ 100 <;> simp [UserCreate.validate, h]
  · by_cases h : s.length ≤ 255 <;> simp [UserCreate.validate, h]
  · by_cases h : s.length ≤ 100 <;> simp [TestTypeCreate.validate, h]
  · by_cases h : s.length ≤ 500 <;> simp [TestTypeCreate.validate, h]
  · by_cases h : s.length ≤ 50 <;> simp [TestTypeCreate.validate, h]
  · by_cases h : s.length ≤ 100 <;> simp [TestParameterCreate.validate, h]
  · by_cases h : s.length ≤ 20 <;> simp [TestParameterCreate.validate, h]
  · by_cases h : s.length ≤ 20 <;> simp [TestParameterCreate.validate, h]
  · by_cases h : s.length ≤ 300 <;> simp [TestParameterCreate.validate, h]
  · by_cases h : s.length ≤ 300 <;>
      simp [ReferenceRangeCreate.validate, decFieldErr, h]
  · by_cases h : s.length ≤ 200 <;> simp [TestReportCreate.validate, h]
  · by_cases h : s.length ≤ 100 <;> simp [TestReportCreate.validate, h]
  · by_cases h : s.length ≤ 100 <;> simp [TestReportCreate.validate, h]
  · by_cases h : s.length ≤ 1000 <;> simp [TestReportCreate.validate, h]
  · by_cases h : s.length ≤ 10 <;>
      simp [TestResultCreate.validate, Dec.places3, h]
  · by_cases h : s.length ≤ 300 <;>
      simp [TestResultCreate.validate, Dec.places3, h]

/-- C4: applying an Update schema in which every field is unset leaves the
target record completely unchanged, for each of `UserUpdate`,
`TestReportUpdate` and `TestResultUpdate`. -/
theorem update_all_unset_is_identity :
    (∀ (u : UserUpdate) (r : User),
      u.name = none → u.email = none → u.date_of_birth = none →
      u.gender = none → applyUserUpdate u r = r) ∧
    (∀ (u : TestReportUpdate) (r : TestReport),
      u.report_name = none → u.lab_name = none → u.doctor_name = none →
      u.status = none → u.notes = none → applyTestReportUpdate u r = r) ∧
    (∀ (u : TestResultUpdate) (r : TestResult),
      u.value = none → u.is_abnormal = none → u.abnormal_flag = none →
      u.notes = none → applyTestResultUpdate u r = r) := by
  refine ⟨?_, ?_, ?_⟩
  · intro u r h1 h2 h3 h4
    cases u
    simp_all [applyUserUpdate]
  · intro u r h1 h2 h3 h4 h5
    cases u
    simp_all [applyTestReportUpdate]
  · intro u r h1 h2 h3 h4
    cases u
    simp_all [applyTestResultUpdate]

/-- C4 witness: the all-unset patches at concrete records. -/
theorem update_all_unset_is_identity_witness :
    applyUserUpdate
      { name := none, email := none, date_of_birth := none, gender := none }
      { id := some 7, name := "Ada", email := "ada@lab.io2", date_of_birth := none,
        gender := some .female, is_active := true, created_at := 5,
        updated_at := none } =
      { id := some 7, name := "Ada", email := "ada@lab.io2", date_of_birth := none,
        gender := some .female, is_active := true, created_at := 5,
        updated_at := none } ∧
    applyTestResultUpdate
      { value := none, is_abnormal := none, abnormal_flag := none, notes := none }
      { id := none, test_report_id := 1, test_parameter_id := 2,
        value := ⟨5100, 3⟩, is_abnormal := false, abnormal_flag := none,
        notes := "", created_at := 0 } =
      { id := none, test_report_id := 1, test_parameter_id := 2,
        value := ⟨5100, 3⟩, is_abnormal := false, abnormal_flag := none,
        notes := "", created_at := 0 } :=
  ⟨update_all_unset_is_identity.1 _ _ rfl rfl rfl rfl,
   update_all_unset_is_identity.2.2 _ _ rfl rfl rfl rfl⟩

/-- C5: no Create transfer schema declares the server-assigned fields
`id`, `created_at` or `status`, and a `TestReport` built from a
`TestReportCreate` starts in the default status `pending`. -/
theorem create_schemas_carry_no_server_fields :
    ("id" ∉ UserCreate.fieldNames ∧ "created_at" ∉ UserCreate.fieldNames ∧
      "status" ∉ UserCreate.fieldNames) ∧
    ("id" ∉ TestTypeCreate.fieldNames ∧ "created_at" ∉ TestTypeCreate.fieldNames ∧
      "status" ∉ TestTypeCreate.fieldNames) ∧
    ("id" ∉ TestParameterCreate.fieldNames ∧
      "created_at" ∉ TestParameterCreate.fieldNames ∧
      "status" ∉ TestParameterCreate.fieldNames) ∧
    ("id" ∉ ReferenceRangeCreate.fieldNames ∧
      "created_at" ∉ ReferenceRangeCreate.fieldNames ∧
      "status" ∉ ReferenceRangeCreate.fieldNames) ∧
    ("id" ∉ TestReportCreate.fieldNames ∧
      "created_at" ∉ TestReportCreate.fieldNames ∧
      "status" ∉ TestReportCreate.fieldNames) ∧
    ("id" ∉ TestResultCreate.fieldNames ∧
      "created_at" ∉ TestResultCreate.fieldNames ∧
      "status" ∉ TestResultCreate.fieldNames) ∧
    (∀ (c : TestReportCreate) (now : Nat),
      (TestReport.fromCreate c now).status = TestStatus.pending) :=
  ⟨by decide, by decide, by decide, by decide, by decide, by decide,
   fun _ _ => rfl⟩

/-- C10: `TestReportUpdate` exposes exactly report_name, lab_name,
doctor_name, status and notes, so applying any such patch leaves
`user_id`, `test_type_id`, `test_date`, `file_path`, `file_name`,
`extra_metadata` and `created_at` of the report unchanged. -/
theorem report_update_frame :
    TestReportUpdate.fieldNames =
      ["report_name", "lab_name", "doctor_name", "status", "notes"] ∧
    ∀ (u : TestReportUpdate) (r : TestReport),
      (applyTestReportUpdate u r).user_id = r.user_id ∧
      (applyTestReportUpdate u r).test_type_id = r.test_type_id ∧
      (applyTestReportUpdate u r).test_date = r.test_date ∧
      (applyTestReportUpdate u r).file_path = r.file_path ∧
      (applyTestReportUpdate u r).file_name = r.file_name ∧
      (applyTestReportUpdate u r).extra_metadata = r.extra_metadata ∧
      (applyTestReportUpdate u r).created_at = r.created_at :=
  ⟨rfl, fun _ _ => ⟨rfl, rfl, rfl, rfl, rfl, rfl, rfl⟩⟩

/-- C6: the derived `status` of a `TestResultWithRange` follows the
specified comparison of the value with the range bounds — below the
minimum is "low", above the maximum is "high" (when not low), inside the
optimal interval is "optimal" (when neither low nor high), and otherwise
"normal"; in particular value 150.000 against min 300 / max 1000 joins to
status "low". -/
theorem derived_status_matches_bounds :
    (∀ (v m : Int) (rmax omin omax : Option Int),
      v < m → deriveStatus v (some m) rmax omin omax = "low") ∧
    (∀ (v M : Int) (rmin omin omax : Option Int),
      ltOpt v rmin = false → M < v →
      deriveStatus v rmin (some M) omin omax = "high") ∧
    (∀ (v a b : Int) (rmin rmax : Option Int),
      ltOpt v rmin = false → gtOpt v rmax = false → a ≤ v → v ≤ b →
      deriveStatus v rmin rmax (some a) (some b) = "optimal") ∧
    (∀ (v : Int) (rmin rmax omin omax : Option Int),
      ltOpt v rmin = false → gtOpt v rmax = false →
      insideOpt v omin omax = false →
      deriveStatus v rmin rmax omin omax = "normal") ∧
    (∀ (res : TestResult) (rng : ReferenceRange) (rid : Int)
        (pn pc pu : String),
      res.value = ⟨150000, 3⟩ → rng.min_value = some ⟨300, 0⟩ →
      rng.max_value = some ⟨1000, 0⟩ → rng.optimal_min = none →
      rng.optimal_max = none →
      (mkTestResultWithRange res rid pn pc pu rng).status = "low") := by
  refine ⟨?_, ?_, ?_, ?_, ?_⟩
  · intro v m rmax omin omax h
    simp [deriveStatus, ltOpt, h]
  · intro v M rmin omin omax h1 h2
    simp [deriveStatus, gtOpt, h1, h2]
  · intro v a b rmin rmax h1 h2 h3 h4
    simp [deriveStatus, insideOpt, h1, h2, h3, h4]
  · intro v rmin rmax omin omax h1 h2 h3
    simp [deriveStatus, h1, h2, h3]
  · intro res rng rid pn pc pu hv hmin hmax homin homax
    simp [mkTestResultWithRange, hv, hmin, hmax, homin, homax,
      deriveStatus, ltOpt, Dec.val3]

/-- C6 witness: the clauses at concrete inputs, including the
value=150.000 / min=300 / max=1000 example joining to "low". -/
theorem derived_status_matches_bounds_witness :
    deriveStatus 150000 (some 300000) (some 1000000) none none = "low" ∧
    deriveStatus 1200000 (some 300000) (some 1000000) none none = "high" ∧
    deriveStatus 500000 (some 300000) (some 1000000) (some 400000)
      (some 600000) = "optimal" ∧
    deriveStatus 350000 (some 300000) (some 1000000) (some 400000)
      (some 600000) = "normal" ∧
    (mkTestResultWithRange
      { id := none, test_report_id := 1, test_parameter_id := 1,
        value := ⟨150000, 3⟩, is_abnormal := false, abnormal_flag := none,
        notes := "", created_at := 0 }
      1 "Testosterone" "TST" "ng/dL"
      { id := none, test_parameter_id := 1, gender := none, age_group := none,
        min_age := none, max_age := none, min_value := some ⟨300, 0⟩,
        max_value := some ⟨1000, 0⟩, optimal_min := none, optimal_max := none,
        notes := "", is_active := true, created_at := 0 }).status = "low" :=
  ⟨derived_status_matches_bounds.1 150000 300000 (some 1000000) none none
      (by decide),
   derived_status_matches_bounds.2.1 1200000 1000000 (some 300000) none none
      (by decide) (by decide),
   derived_status_matches_bounds.2.2.1 500000 400000 600000 (some 300000)
      (some 1000000) (by decide) (by decide) (by decide) (by decide),
   derived_status_matches_bounds.2.2.2.1 350000 (some 300000) (some 1000000)
      (some 400000) (some 600000) (by decide) (by decide) (by decide),
   derived_status_matches_bounds.2.2.2.2 _ _ 1 "Testosterone" "TST" "ng/dL"
      rfl rfl rfl rfl rfl⟩

/-- Declared `decimal_places` of every Decimal-valued field in the module,
read off the `Field(..., decimal_places=3)` declarations of the source. -/
def decimalFieldPlaces : List (String × Nat) :=
  [("ReferenceRange.min_value", 3), ("ReferenceRange.max_value", 3),
   ("ReferenceRange.optimal_min", 3), ("ReferenceRange.optimal_max", 3),
   ("TestResult.value", 3),
   ("ReferenceRangeCreate.min_value", 3), ("ReferenceRangeCreate.max_value", 3),
   ("ReferenceRangeCreate.optimal_min", 3),
   ("ReferenceRangeCreate.optimal_max", 3),
   ("TestResultCreate.value", 3), ("TestResultUpdate.value", 3)]

/-- Modelled from the spec: storing a decimal field value quantizes it to
the declared 3 fractional digits (the storage layer itself is outside this
module); a read returns the stored literal unchanged. -/
def decStore3 (d : Dec) : Dec := ⟨d.m * (10 : Int) ^ (3 - d.s), 3⟩

/-- C7: every Decimal-valued field of the module is declared with exactly
3 decimal places, and a value accepted by the `decimal_places=3`
constraint round-trips through storage with exactly 3 fractional digits
and unchanged numeric value (`5.1` is read back as `5.100`). -/
theorem decimal_fields_three_places_roundtrip :
    decimalFieldPlaces.all (fun p => p.2 == 3) = true ∧
    (∀ d : Dec, d.places3 = true →
      (decStore3 d).s = 3 ∧
      (decStore3 d).m * (10 : Int) ^ d.s = d.m * (10 : Int) ^ (3 : Nat)) ∧
    decStore3 ⟨51, 1⟩ = ⟨5100, 3⟩ := by
  refine ⟨by decide, ?_, by decide⟩
  intro d h
  have hs : d.s ≤ 3 := by simpa [Dec.places3] using h
  refine ⟨rfl, ?_⟩
  show d.m * (10 : Int) ^ (3 - d.s) * (10 : Int) ^ d.s = d.m * (10 : Int) ^ (3 : Nat)
  rw [mul_assoc, ← pow_add, Nat.sub_add_cancel hs]

/-- C7 witness: the input 5.1 (one fractional digit, accepted by the
constraint) is stored and read back as 5.100. -/
theorem decimal_fields_three_places_roundtrip_witness :
    (decStore3 ⟨51, 1⟩).s = 3 ∧
    (decStore3 ⟨51, 1⟩).m * (10 : Int) ^ (1 : Nat) = 51 * (10 : Int) ^ (3 : Nat) :=
  decimal_fields_three_places_roundtrip.2.1 ⟨51, 1⟩ (by decide)

/-- C8: a `ReferenceRange` with no gender and no age-group filter applies
to every user, and when a range matching both the user's gender and
age group coexists with the unfiltered one for the same parameter, the
selection logic picks the more specific range, in either order. -/
theorem null_filters_apply_to_all_and_specific_wins :
    (∀ (r : ReferenceRange) (u : UserDemo),
      r.gender = none → r.age_group = none → rangeApplies r u = true) ∧
    (∀ (u : UserDemo) (gen spc : ReferenceRange),
      gen.gender = none → gen.age_group = none →
      spc.gender = some u.gender → spc.age_group = some u.age_group →
      selectRange u [gen, spc] = some spc ∧
      selectRange u [spc, gen] = some spc) := by
  constructor
  · intro r u h1 h2
    simp [rangeApplies, h1, h2]
  · intro u gen spc h1 h2 h3 h4
    constructor <;>
      simp [selectRange, rangeApplies, rangeSpecificity, h1, h2, h3, h4]

/-- C8 witness: a concrete unfiltered range and a concrete
male/adult-specific range for the same parameter. -/
theorem null_filters_apply_to_all_and_specific_wins_witness :
    rangeApplies
      { id := some 1, test_parameter_id := 9, gender := none, age_group := none,
        min_age := none, max_age := none, min_value := some ⟨300, 0⟩,
        max_value := some ⟨1000, 0⟩, optimal_min := none, optimal_max := none,
        notes := "", is_active := true, created_at := 0 }
      { gender := .female, age_group := .teen } = true ∧
    selectRange { gender := .male, age_group := .adult }
      [{ id := some 1, test_parameter_id := 9, gender := none, age_group := none,
         min_age := none, max_age := none, min_value := some ⟨300, 0⟩,
         max_value := some ⟨1000, 0⟩, optimal_min := none, optimal_max := none,
         notes := "", is_active := true, created_at := 0 },
       { id := some 2, test_parameter_id := 9, gender := some .male,
         age_group := some .adult, min_age := none, max_age := none,
         min_value := some ⟨350, 0⟩, max_value := some ⟨900, 0⟩,
         optimal_min := none, optimal_max := none, notes := "",
         is_active := true, created_at := 0 }] =
      some { id := some 2, test_parameter_id := 9, gender := some .male,
             age_group := some .adult, min_age := none, max_age := none,
             min_value := some ⟨350, 0⟩, max_value := some ⟨900, 0⟩,
             optimal_min := none, optimal_max := none, notes := "",
             is_active := true, created_at := 0 } :=
  ⟨null_filters_apply_to_all_and_specific_wins.1 _ _ rfl rfl,
   (null_filters_apply_to_all_and_specific_wins.2 _ _ _
      rfl rfl rfl rfl).1⟩

/-- C9: `extra_metadata` round-trips arbitrary structured data — for every
structured value (any nesting of null/bool/number/string/array/map),
serializing it through the metadata encoding and parsing it back returns
exactly the same value. -/
theorem extra_metadata_roundtrip (v : SValue) :
    metadataLoad (metadataStore v) = some v := by
  unfold metadataLoad metadataStore
  have h := decode_encodeSValue v (encodeSValue v).length []
    (depth_le_lengthSValue v)
  rw [List.append_nil] at h
  rw [h]

end MedModels
